import Mathlib

/-!
# Verification of the mev-bot price-aggregation and opportunity-detection pipeline

Shallow embedding of the core of the `mev-bot` repository:

* `src/services/priceCalculator.ts` — the opportunity detector
  (`PriceCalculator.calculateArbitrageOpportunities` / `calculatePairOpportunities`
  / `calculateOpportunity` / `estimateGasCost`);
* `src/services/dexMonitor.ts` — the poller / price cache
  (`DexMonitor.fetchPriceForDex`, `fetchUniswapV2Price`, `getCachedPrice`,
  `getAllCachedPrices`);
* `src/services/chainManager.ts` — the connection manager
  (`ChainManager.getProvider` / `establishConnection`);
* `src/utils/constants.ts` and `src/config/chains.ts` — the static configuration
  (`SYSTEM_CONSTANTS`, `TOKEN_PAIRS`, `GAS_PRICES`, `DEX_CONFIGS`).

JavaScript `number` values are modelled by `ℚ`, except where the source can
divide by zero: there the JS result is a non-finite double (`NaN` or `±Infinity`),
which we model exactly with the `JsNum` sum type below, including the JS
comparison semantics (`NaN >= x` and `NaN < x` are both `false`, `-Infinity >= x`
is `false`, `+Infinity >= x` is `true`).  Times (`Date.now()`, `Date` values)
are epoch milliseconds, modelled by `Int`.  `Map<string, T>` is modelled by an
insertion-ordered association list, matching the iteration order of a JS `Map`.
-/

namespace MevBot

/-- The `ChainId` enum from `src/types/chain.ts`. -/
inductive ChainId where
  | ethereum
  | arbitrum
  | polygon
  | base
deriving DecidableEq, Repr

/-- The numeric value of each `ChainId` enum member (`ETHEREUM = 1`, `ARBITRUM = 42161`,
`POLYGON = 137`, `BASE = 8453`). -/
def ChainId.toNum : ChainId → Nat
  | .ethereum => 1
  | .arbitrum => 42161
  | .polygon => 137
  | .base => 8453

/-- The `DexName` enum from `src/types/chain.ts`. -/
inductive DexName where
  | uniswapV2
  | uniswapV3
  | sushiswap
  | camelot
  | quickswap
  | aerodrome
  | baseswap
deriving DecidableEq, Repr

/-- The string value of each `DexName` enum member. -/
def DexName.str : DexName → String
  | .uniswapV2 => "uniswap_v2"
  | .uniswapV3 => "uniswap_v3"
  | .sushiswap => "sushiswap"
  | .camelot => "camelot"
  | .quickswap => "quickswap"
  | .aerodrome => "aerodrome"
  | .baseswap => "baseswap"

/-- A JavaScript `number` that may be non-finite: the result of a JS division
whose denominator is `0` is `NaN` (for `0/0`) or `±Infinity` (sign of the
numerator).  Finite values are exact rationals. -/
inductive JsNum where
  | fin : ℚ → JsNum
  | posInf
  | negInf
  | nan
deriving DecidableEq, Repr

/-- JS division `a / b` on numbers: finite quotient when `b ≠ 0`, otherwise the
IEEE-754 non-finite results `+∞`, `-∞` or `NaN` depending on the sign of `a`. -/
def jsDiv (a b : ℚ) : JsNum :=
  if b ≠ 0 then .fin (a / b)
  else if 0 < a then .posInf
  else if a < 0 then .negInf
  else .nan

/-- Multiplication of a JS number by the positive constant `100`
(as in `... / potentialProfit * 100`); non-finite values are preserved. -/
def JsNum.mul100 : JsNum → JsNum
  | .fin a => .fin (a * 100)
  | .posInf => .posInf
  | .negInf => .negInf
  | .nan => .nan

/-- The JS comparison `x >= t` for a possibly non-finite `x` and finite `t`:
`NaN >= t` is `false`, `-Infinity >= t` is `false`, `+Infinity >= t` is `true`. -/
def JsNum.geQ : JsNum → ℚ → Bool
  | .fin a, t => decide (t ≤ a)
  | .posInf, _ => true
  | .negInf, _ => false
  | .nan, _ => false

/-- The JS comparison `x < t` for a possibly non-finite `x` and finite `t`:
`NaN < t` is `false`, `+Infinity < t` is `false`, `-Infinity < t` is `true`. -/
def JsNum.ltQ : JsNum → ℚ → Bool
  | .fin a, t => decide (a < t)
  | .posInf, _ => false
  | .negInf, _ => true
  | .nan, _ => false

/-- The `PriceData` record from `src/types/price.ts`, as produced by the DexMonitor
fetchers.  `gasPrice` (a `bigint` in wei) and `feeTier` are optional.  The `id`
(uuid) carries no semantics beyond identity and is kept as a string. -/
structure PriceData where
  id : String
  chainId : ChainId
  dexName : DexName
  tokenPair : String
  baseToken : String
  quoteToken : String
  price : ℚ
  priceUsd : ℚ
  liquidity : ℚ
  volume24h : ℚ
  timestamp : Int
  blockNumber : Nat
  gasPrice : Option Nat
  feeTier : Option Nat
deriving DecidableEq, Repr

/-- The `trading` section of `AppConfig` (`src/config/env.ts`):
`minProfitThreshold` (percent), `maxGasCost` (USD), `minLiquidityThreshold`. -/
structure TradingConfig where
  minProfitThreshold : ℚ
  maxGasCost : ℚ
  minLiquidityThreshold : ℚ
deriving DecidableEq, Repr

/-- Default trading configuration (`MIN_PROFIT_THRESHOLD=2.0`, `MAX_GAS_COST=100`,
`MIN_LIQUIDITY_THRESHOLD=10000` from `src/types/config.ts` defaults). -/
def defaultTradingConfig : TradingConfig :=
  { minProfitThreshold := 2, maxGasCost := 100, minLiquidityThreshold := 10000 }

/-- The `SYSTEM_CONSTANTS.MAX_PRICE_AGE` (`src/utils/constants.ts`): 60000 ms. -/
def maxPriceAge : Int := 60000

/-- The `SYSTEM_CONSTANTS.PRICE_UPDATE_INTERVAL` (`src/utils/constants.ts`): 1000 ms. -/
def priceUpdateInterval : Int := 1000

/-- The `SYSTEM_CONSTANTS.MAX_RETRIES` (`src/utils/constants.ts`): 3. -/
def maxRetriesConst : Nat := 3

/-- The per-chain `gasLimit` from `GAS_PRICES` in `src/utils/constants.ts`. -/
def gasLimitFor : ChainId → Nat
  | .ethereum => 300000
  | .arbitrum => 1000000
  | .polygon => 500000
  | .base => 500000

/-- The `PriceCalculator.estimateGasCost` (`src/services/priceCalculator.ts`).
`feeData c` is the `gasPrice` (wei) reported by the chain's provider
(`provider.getFeeData()`), with `none` standing for the error path (provider
failure) in which the method returns `0`.  A `null` fee (`gasPrice.gasPrice || 0n`)
is modelled by `some 0`.  The source computes
`gasCostWei = gasPrice * gasLimit`, `gasCostEth = Number(gasCostWei) / 1e18`,
`gasCostUsd = gasCostEth * 2000` (hard-coded ETH price placeholder); the
`Number(...)` double conversion is idealised as exact rational arithmetic. -/
def estimateGasCost (feeData : ChainId → Option Nat) (chainId : ChainId) : ℚ :=
  match feeData chainId with
  | none => 0
  | some gasPriceWei =>
      let gasCostWei : Nat := gasPriceWei * gasLimitFor chainId
      let gasCostEth : ℚ := (gasCostWei : ℚ) / (10 ^ 18 : ℚ)
      gasCostEth * 2000

/-- The `ArbitrageOpportunity` record from `src/types/price.ts`, as built by
`PriceCalculator.calculateOpportunity`.  `profitMargin` and
`priceDifferencePercent` are `JsNum` because the source divides by
`potentialProfit` and by `min(p1, p2)` respectively with no zero guard. -/
structure ArbitrageOpportunity where
  tokenPair : String
  baseToken : String
  quoteToken : String
  sourceChain : ChainId
  sourceDex : DexName
  targetChain : ChainId
  targetDex : DexName
  sourcePrice : ℚ
  targetPrice : ℚ
  priceDifference : ℚ
  priceDifferencePercent : JsNum
  potentialProfit : ℚ
  gasCost : ℚ
  netProfit : ℚ
  profitMargin : JsNum
  timestamp : Int
  isProfitable : Bool
  minProfitThreshold : ℚ
deriving DecidableEq, Repr

/-- The `PriceCalculator.calculateOpportunity` (`src/services/priceCalculator.ts`,
lines 134–211).  Parameters beyond the two `PriceData` inputs: the trading
config, the provider fee data consumed by `estimateGasCost`, and `now`
(the `new Date()` written into the record).  Returns `none` exactly when the
source returns `null` (price difference below `minProfitThreshold`); the
source's `catch` path is unreachable here because the modelled body is total. -/
def calculateOpportunity (cfg : TradingConfig) (feeData : ChainId → Option Nat)
    (now : Int) (sourcePrice targetPrice : PriceData) : Option ArbitrageOpportunity :=
  let priceDifference := |sourcePrice.price - targetPrice.price|
  let priceDifferencePercent :=
    (jsDiv priceDifference (min sourcePrice.price targetPrice.price)).mul100
  if priceDifferencePercent.ltQ cfg.minProfitThreshold then
    none
  else
    let isSourceCheaper := sourcePrice.price < targetPrice.price
    let buyPrice := if isSourceCheaper then sourcePrice.price else targetPrice.price
    let sellPrice := if isSourceCheaper then targetPrice.price else sourcePrice.price
    let buyChain := if isSourceCheaper then sourcePrice.chainId else targetPrice.chainId
    let sellChain := if isSourceCheaper then targetPrice.chainId else sourcePrice.chainId
    let buyDex := if isSourceCheaper then sourcePrice.dexName else targetPrice.dexName
    let sellDex := if isSourceCheaper then targetPrice.dexName else sourcePrice.dexName
    let potentialProfit := (sellPrice - buyPrice) * sourcePrice.liquidity
    let buyGasCost := estimateGasCost feeData buyChain
    let sellGasCost := estimateGasCost feeData sellChain
    let totalGasCost := buyGasCost + sellGasCost
    let netProfit := potentialProfit - totalGasCost
    let profitMargin := (jsDiv netProfit potentialProfit).mul100
    let isProfitable := decide (0 < netProfit)
      && profitMargin.geQ cfg.minProfitThreshold
      && decide (totalGasCost ≤ cfg.maxGasCost)
    some {
      tokenPair := sourcePrice.tokenPair
      baseToken := sourcePrice.baseToken
      quoteToken := sourcePrice.quoteToken
      sourceChain := buyChain
      sourceDex := buyDex
      targetChain := sellChain
      targetDex := sellDex
      sourcePrice := buyPrice
      targetPrice := sellPrice
      priceDifference := priceDifference
      priceDifferencePercent := priceDifferencePercent
      potentialProfit := potentialProfit
      gasCost := totalGasCost
      netProfit := netProfit
      profitMargin := profitMargin
      timestamp := now
      isProfitable := isProfitable
      minProfitThreshold := cfg.minProfitThreshold
    }

/-- The freshness filter at the top of `PriceCalculator.calculatePairOpportunities`:
`prices.filter(price => Date.now() - price.timestamp.getTime() < SYSTEM_CONSTANTS.MAX_PRICE_AGE)`. -/
def recentPricesFilter (now : Int) (prices : List PriceData) : List PriceData :=
  prices.filter (fun price => now - price.timestamp < maxPriceAge)

/-- All index pairs `i < j` of a list in the iteration order of the double loop
`for i ... for j = i+1 ...` in `calculatePairOpportunities`. -/
def pairCombos : List PriceData → List (PriceData × PriceData)
  | [] => []
  | p :: rest => rest.map (fun q => (p, q)) ++ pairCombos rest

/-- The body of the double loop of `calculatePairOpportunities` applied to one
`(sourcePrice, targetPrice)` combination: skip identical `(chainId, dexName)`,
compute the opportunity and keep it only when `opportunity && opportunity.isProfitable`. -/
def pairLoopStep (cfg : TradingConfig) (feeData : ChainId → Option Nat) (now : Int)
    (c : PriceData × PriceData) : Option ArbitrageOpportunity :=
  if c.1.chainId = c.2.chainId ∧ c.1.dexName = c.2.dexName then none
  else
    match calculateOpportunity cfg feeData now c.1 c.2 with
    | some opp => if opp.isProfitable then some opp else none
    | none => none

/-- The `PriceCalculator.calculatePairOpportunities` (`src/services/priceCalculator.ts`,
lines 81–129): filter out old prices, return `[]` when fewer than 2 remain,
otherwise run the double loop pushing each kept opportunity onto the result. -/
def calculatePairOpportunities (cfg : TradingConfig) (feeData : ChainId → Option Nat)
    (now : Int) (prices : List PriceData) : List ArbitrageOpportunity :=
  let recentPrices := recentPricesFilter now prices
  if recentPrices.length < 2 then []
  else (pairCombos recentPrices).filterMap (pairLoopStep cfg feeData now)

/-- The opportunities handed to `databaseService.storeArbitrageOpportunity` during
one `calculatePairOpportunities` run.  In the source the store happens inside the
same `if (opportunity && opportunity.isProfitable)` block that pushes onto the
returned array, so the stored sequence is built by the identical filter. -/
def storedPairOpportunities (cfg : TradingConfig) (feeData : ChainId → Option Nat)
    (now : Int) (prices : List PriceData) : List ArbitrageOpportunity :=
  let recentPrices := recentPricesFilter now prices
  if recentPrices.length < 2 then []
  else (pairCombos recentPrices).filterMap (pairLoopStep cfg feeData now)

/-! ## DexMonitor: poller and price cache (`src/services/dexMonitor.ts`) -/

/-- The fields of `DexConfig` (`src/types/chain.ts`) used by the poller and cache.
The contract address strings (`factoryAddress`, `routerAddress`) influence no
modelled operation (the address lookups `getPairAddress`/`getPoolAddress` are
placeholders returning `null`) and are omitted. -/
structure DexConfig where
  name : DexName
  chainId : ChainId
  version : String
  feeTier : Option Nat
  isActive : Bool
deriving DecidableEq, Repr

/-- The `DEX_CONFIGS` from `src/config/chains.ts`: the 12 configured venue/chain
combinations, all with `isActive: true`. -/
def DEX_CONFIGS : List DexConfig :=
  [ { name := .uniswapV2, chainId := .ethereum, version := "v2", feeTier := none, isActive := true },
    { name := .uniswapV3, chainId := .ethereum, version := "v3", feeTier := some 3000, isActive := true },
    { name := .sushiswap, chainId := .ethereum, version := "v2", feeTier := none, isActive := true },
    { name := .uniswapV3, chainId := .arbitrum, version := "v3", feeTier := some 3000, isActive := true },
    { name := .sushiswap, chainId := .arbitrum, version := "v2", feeTier := none, isActive := true },
    { name := .camelot, chainId := .arbitrum, version := "v2", feeTier := none, isActive := true },
    { name := .uniswapV3, chainId := .polygon, version := "v3", feeTier := some 3000, isActive := true },
    { name := .sushiswap, chainId := .polygon, version := "v2", feeTier := none, isActive := true },
    { name := .quickswap, chainId := .polygon, version := "v2", feeTier := none, isActive := true },
    { name := .uniswapV3, chainId := .base, version := "v3", feeTier := some 3000, isActive := true },
    { name := .aerodrome, chainId := .base, version := "v2", feeTier := none, isActive := true },
    { name := .baseswap, chainId := .base, version := "v2", feeTier := none, isActive := true } ]

/-- The `getActiveDexConfigs` (`src/config/chains.ts`): `DEX_CONFIGS.filter(dex => dex.isActive)`. -/
def getActiveDexConfigs : List DexConfig :=
  DEX_CONFIGS.filter (fun dex => dex.isActive)

/-- The fields of a `TOKEN_PAIRS` entry (`src/utils/constants.ts`) used by the
poller and cache; on-chain address strings are omitted (they influence no
modelled operation). -/
structure TokenPairConfig where
  baseToken : String
  quoteToken : String
  baseTokenDecimals : Nat
  quoteTokenDecimals : Nat
deriving DecidableEq, Repr

/-- The `TOKEN_PAIRS` from `src/utils/constants.ts`: the four monitored pairs. -/
def TOKEN_PAIRS : List TokenPairConfig :=
  [ { baseToken := "ETH", quoteToken := "USDC", baseTokenDecimals := 18, quoteTokenDecimals := 6 },
    { baseToken := "ETH", quoteToken := "USDT", baseTokenDecimals := 18, quoteTokenDecimals := 6 },
    { baseToken := "WBTC", quoteToken := "USDC", baseTokenDecimals := 8, quoteTokenDecimals := 6 },
    { baseToken := "WBTC", quoteToken := "ETH", baseTokenDecimals := 8, quoteTokenDecimals := 18 } ]

/-- Lookup in a JS `Map<string, α>` modelled as an insertion-ordered association
list: `Map.get` returns the value bound to the key, `undefined` (here `none`)
when absent. -/
def mapGet (m : List (String × α)) (k : String) : Option α :=
  (m.find? (fun kv => kv.1 = k)).map (fun kv => kv.2)

/-- The `Map.set` on a JS `Map`: overwrites the binding in place when the key exists
(keeping its position in iteration order), otherwise appends a new binding. -/
def mapSet (m : List (String × α)) (k : String) (v : α) : List (String × α) :=
  if m.any (fun kv => kv.1 = k) then
    m.map (fun kv => if kv.1 = k then (k, v) else kv)
  else m ++ [(k, v)]

/-- The mutable state of a `DexMonitor` instance: `priceCache` and
`lastUpdateTime` (`src/services/dexMonitor.ts`, lines 34–35). -/
structure DexMonitorState where
  priceCache : List (String × PriceData)
  lastUpdateTime : List (String × Int)
deriving DecidableEq, Repr

/-- The fresh `DexMonitor` state: both maps empty. -/
def DexMonitorState.empty : DexMonitorState := ⟨[], []⟩

/-- The cache key written by `fetchPriceForDex`:
`` `${dexConfig.chainId}-${dexConfig.name}-${tokenPair.baseToken}-${tokenPair.quoteToken}` ``
(line 87).  The enum values interpolate as their numeric/string values. -/
def storeKey (dexConfig : DexConfig) (tokenPair : TokenPairConfig) : String :=
  toString dexConfig.chainId.toNum ++ "-" ++ dexConfig.name.str ++ "-"
    ++ tokenPair.baseToken ++ "-" ++ tokenPair.quoteToken

/-- The cache key read by `getCachedPrice`:
`` `${chainId}-${dexName}-${tokenPair}` `` (line 334), where `tokenPair` is the
caller-supplied pair string. -/
def lookupKey (chainId : ChainId) (dexName : DexName) (tokenPair : String) : String :=
  toString chainId.toNum ++ "-" ++ dexName.str ++ "-" ++ tokenPair

/-- The `tokenPair` field written into every fetched `PriceData`:
`` `${tokenPair.baseToken}/${tokenPair.quoteToken}` `` (line 211). -/
def tokenPairStr (tokenPair : TokenPairConfig) : String :=
  tokenPair.baseToken ++ "/" ++ tokenPair.quoteToken

/-- The `DexMonitor.fetchUniswapV2Price` (`src/services/dexMonitor.ts`, lines 172–227),
after the pair address and reserves have been read.  `token0IsBase` is
`token0.toLowerCase() === baseTokenAddress.toLowerCase()`; `reserve0`/`reserve1`
are the pool reserves (uint112).  `price = Number(quoteReserve) / Number(baseReserve)`
and `liquidity = Number(baseReserve) + Number(quoteReserve)`; the division is
idealised as rational division (exact whenever `baseReserve ≠ 0`, which holds at
every input this development evaluates).  No validation of the computed price or
liquidity is performed anywhere in the function. -/
def fetchUniswapV2Price (dexConfig : DexConfig) (tokenPair : TokenPairConfig)
    (quoteId : String) (reserve0 reserve1 : Nat) (token0IsBase : Bool)
    (now : Int) (blockNumber : Nat) (gasPrice : Option Nat) : PriceData :=
  let baseReserve := if token0IsBase then reserve0 else reserve1
  let quoteReserve := if token0IsBase then reserve1 else reserve0
  let price : ℚ := (quoteReserve : ℚ) / (baseReserve : ℚ)
  let liquidity : ℚ := (baseReserve : ℚ) + (quoteReserve : ℚ)
  { id := quoteId
    chainId := dexConfig.chainId
    dexName := dexConfig.name
    tokenPair := tokenPairStr tokenPair
    baseToken := tokenPair.baseToken
    quoteToken := tokenPair.quoteToken
    price := price
    priceUsd := price
    liquidity := liquidity
    volume24h := 0
    timestamp := now
    blockNumber := blockNumber
    gasPrice := gasPrice
    feeTier := none }

/-- A row passed to `databaseService.storePerformanceMetric`
(operation, duration, success, …, error reason). -/
structure PerfMetric where
  operation : String
  duration : Int
  success : Bool
  reason : Option String
deriving DecidableEq, Repr

/-- The outcome of one `fetchPriceForDex` call: the updated monitor state, the
metric row written to `databaseService` (if any), and whether the call itself
ended in a raised error escaping the `catch` handler. -/
structure FetchOutcome where
  state : DexMonitorState
  storedMetric : Option PerfMetric
  handlerRaised : Bool
deriving DecidableEq, Repr

/-- The `DexMonitor.fetchPriceForDex` (`src/services/dexMonitor.ts`, lines 81–167).
`fetched` is the result of the provider round-trips plus the DEX-specific fetch
(`fetchUniswapV2Price` / `fetchUniswapV3Price` / `fetchSushiSwapPrice`): `.ok q`
when a `PriceData` was produced, `.error msg` when any step threw.

Rate limiting: when `now - lastUpdate < PRICE_UPDATE_INTERVAL` the method
returns before fetching anything.  Success path: `priceCache.set(cacheKey, q)`,
`lastUpdateTime.set(cacheKey, now)` — with no validation of `q` whatsoever
(the guard `if (priceData)` only tests object truthiness, which always holds).

Failure path (`catch`): the source calls
`databaseService.storePerformanceMetric(op, Date.now() - startTime, false, …)`,
but `startTime` is declared with `const` *inside the `try` block* (line 97) and
is therefore not in scope in the `catch` block: TypeScript rejects the file
(TS2304), and under plain JS evaluation the reference throws a `ReferenceError`
before `storePerformanceMetric` can run.  The failure path therefore stores no
metric and itself raises; the cache and `lastUpdateTime` are left untouched. -/
def fetchPriceForDex (st : DexMonitorState) (dexConfig : DexConfig)
    (tokenPair : TokenPairConfig) (now : Int)
    (fetched : Except String PriceData) : FetchOutcome :=
  let cacheKey := storeKey dexConfig tokenPair
  let lastUpdate := (mapGet st.lastUpdateTime cacheKey).getD 0
  if now - lastUpdate < priceUpdateInterval then
    { state := st, storedMetric := none, handlerRaised := false }
  else
    match fetched with
    | .ok priceData =>
        { state :=
            { priceCache := mapSet st.priceCache cacheKey priceData
              lastUpdateTime := mapSet st.lastUpdateTime cacheKey now }
          storedMetric := none
          handlerRaised := false }
    | .error _ =>
        { state := st, storedMetric := none, handlerRaised := true }

/-- The `DexMonitor.getCachedPrice` (`src/services/dexMonitor.ts`, lines 333–336). -/
def getCachedPrice (st : DexMonitorState) (chainId : ChainId) (dexName : DexName)
    (tokenPair : String) : Option PriceData :=
  mapGet st.priceCache (lookupKey chainId dexName tokenPair)

/-- The `DexMonitor.getAllCachedPrices` (`src/services/dexMonitor.ts`, lines 341–343):
`Array.from(this.priceCache.values())` — every cached value, in insertion order,
with no condition on age. -/
def getAllCachedPrices (st : DexMonitorState) : List PriceData :=
  st.priceCache.map (fun kv => kv.2)

/-! ## ChainManager: connection manager (`src/services/chainManager.ts`) -/

/-- The `RpcConnection` record (`src/types/chain.ts`): one candidate RPC endpoint. -/
structure RpcConnection where
  url : String
  isActive : Bool
  lastUsed : Int
  latency : Int
  errorCount : Nat
  maxRetries : Nat
deriving DecidableEq, Repr

/-- The `ChainConnection` record (`src/types/chain.ts`).  The live `ethers` provider
object is identified by the URL it was opened on (`Option String`, `none` = the
initial `null`). -/
structure ChainConnection where
  chainId : ChainId
  provider : Option String
  wsProvider : Option String
  connections : List RpcConnection
  currentConnectionIndex : Nat
  isHealthy : Bool
  lastBlockNumber : Nat
  lastBlockTime : Int
deriving DecidableEq, Repr

/-- The probe oracle for connection attempts: `probe i k` is the outcome of
attempt number `k` (0-based) on endpoint index `i` — `some latency` when the
`getBlockNumber()` round-trip succeeds after `latency` ms, `none` when it
throws.  This stands in for the network, which the source reaches through
`new ethers.JsonRpcProvider(url)` followed by `provider.getBlockNumber()`. -/
def Probe := Nat → Nat → Option Int

/-- The `pRetry(fn, { retries: 2, onFailedAttempt: ... })` wrapper inside
`establishConnection` (lines 573–603): up to `attempts` tries of the probe;
every failed attempt runs `onFailedAttempt`, which increments
`rpcConnection.errorCount`; the first success records `latency` and `lastUsed`
and resets `errorCount` to `0`.  `retries: 2` means 3 attempts in total.
Returns the mutated endpoint and `some latency` on success, `none` when all
attempts failed. -/
def runPRetry (outcome : Nat → Option Int) (now : Int) :
    Nat → Nat → RpcConnection → RpcConnection × Option Int
  | 0, _, rc => (rc, none)
  | n + 1, k, rc =>
      match outcome k with
      | some latency =>
          ({ rc with latency := latency, lastUsed := now, errorCount := 0 }, some latency)
      | none =>
          runPRetry outcome now n (k + 1) { rc with errorCount := rc.errorCount + 1 }

/-- The endpoint loop of `ChainManager.establishConnection` (lines 563–623),
acting on the endpoint list from index `i` on.  Eligibility guard (line 566):
skip when `!rpcConnection.isActive || rpcConnection.errorCount >= rpcConnection.maxRetries`.
On success return `(index, url, latency)` and stop (remaining endpoints are
untouched).  On failure of all three pRetry attempts, the `catch` block (lines
615–622) increments `errorCount` once more and sets `isActive = false`
unconditionally, then the loop continues. -/
def establishLoop (probe : Probe) (now : Int) :
    Nat → List RpcConnection → List RpcConnection × Option (Nat × String × Int)
  | _, [] => ([], none)
  | i, rc :: rest =>
      if !rc.isActive || rc.maxRetries ≤ rc.errorCount then
        let (rest', res) := establishLoop probe now (i + 1) rest
        (rc :: rest', res)
      else
        match runPRetry (probe i) now 3 0 rc with
        | (rc', some latency) => (rc' :: rest, some (i, rc'.url, latency))
        | (rc', none) =>
            let rcFailed := { rc' with errorCount := rc'.errorCount + 1, isActive := false }
            let (rest', res) := establishLoop probe now (i + 1) rest
            (rcFailed :: rest', res)

/-- The `ChainManager.establishConnection` (lines 555–628): run the endpoint loop;
on success cache the provider, record the selected index, mark the connection
healthy and stamp `lastBlockTime`; when every endpoint fails, mark the
connection unhealthy and throw `All RPC connections failed`. -/
def establishConnection (probe : Probe) (now : Int) (conn : ChainConnection) :
    ChainConnection × Except String String :=
  match establishLoop probe now 0 conn.connections with
  | (conns', some (i, url, _)) =>
      ({ conn with
          provider := some url
          currentConnectionIndex := i
          isHealthy := true
          lastBlockTime := now
          connections := conns' },
        .ok url)
  | (conns', none) =>
      ({ conn with connections := conns', isHealthy := false },
        .error "All RPC connections failed")

/-- The `ChainManager` state: the `connections: Map<ChainId, ChainConnection>`. -/
structure ChainManagerState where
  connections : List (ChainId × ChainConnection)
deriving DecidableEq, Repr

/-- Lookup in the `Map<ChainId, ChainConnection>`. -/
def cmGet (st : ChainManagerState) (chainId : ChainId) : Option ChainConnection :=
  (st.connections.find? (fun kv => kv.1 = chainId)).map (fun kv => kv.2)

/-- Overwrite the entry for `chainId` (the source mutates the
`ChainConnection` object held in the map). -/
def cmSet (st : ChainManagerState) (chainId : ChainId) (conn : ChainConnection) :
    ChainManagerState :=
  ⟨st.connections.map (fun kv => if kv.1 = chainId then (chainId, conn) else kv)⟩

/-- The result of `ChainManager.getProvider`: the returned provider (or the
thrown error message), the state after the call, and `probeCount` — how many
network round-trips (connection probes) the call performed.  The cached-healthy
fast path performs zero. -/
structure GetProviderResult where
  result : Except String String
  state : ChainManagerState
  probeCount : Nat
deriving Repr

/-- Number of attempts a `pRetry` run with at most `n` tries consumes: each
failed attempt is one round-trip, and the run stops at the first success. -/
def pRetryAttemptsUsed (outcome : Nat → Option Int) : Nat → Nat → Nat
  | 0, _ => 0
  | n + 1, k =>
      match outcome k with
      | some _ => 1
      | none => 1 + pRetryAttemptsUsed outcome n (k + 1)

/-- Number of probe attempts `establishLoop` consumes on the endpoint list from
index `i` on (every pRetry attempt is one network round-trip). -/
def establishLoopProbes (probe : Probe) (now : Int) :
    Nat → List RpcConnection → Nat
  | _, [] => 0
  | i, rc :: rest =>
      if !rc.isActive || rc.maxRetries ≤ rc.errorCount then
        establishLoopProbes probe now (i + 1) rest
      else
        match runPRetry (probe i) now 3 0 rc with
        | (_, some _) => pRetryAttemptsUsed (probe i) 3 0
        | (_, none) => 3 + establishLoopProbes probe now (i + 1) rest

/-- The `ChainManager.getProvider` (`src/services/chainManager.ts`, lines 535–550):
throw when the chain has no entry; return the cached provider immediately when
`connection.provider && connection.isHealthy` (no network I/O, no state
change); otherwise run `establishConnection` with failover. -/
def getProvider (probe : Probe) (now : Int) (st : ChainManagerState)
    (chainId : ChainId) : GetProviderResult :=
  match cmGet st chainId with
  | none => { result := .error "No connection found", state := st, probeCount := 0 }
  | some conn =>
      match conn.provider with
      | some p =>
          if conn.isHealthy then
            { result := .ok p, state := st, probeCount := 0 }
          else
            let (conn', res) := establishConnection probe now conn
            { result := res
              state := cmSet st chainId conn'
              probeCount := establishLoopProbes probe now 0 conn.connections }
      | none =>
          let (conn', res) := establishConnection probe now conn
          { result := res
            state := cmSet st chainId conn'
            probeCount := establishLoopProbes probe now 0 conn.connections }

/-! ## Concrete fixtures used by witnesses and counterexamples -/

/-- A `PriceData` value for the ETH/USDC pair, as the V2 fetcher would shape it. -/
def mkQuote (quoteId : String) (dexName : DexName) (chainId : ChainId)
    (price liquidity : ℚ) (ts : Int) : PriceData :=
  { id := quoteId, chainId := chainId, dexName := dexName, tokenPair := "ETH/USDC",
    baseToken := "ETH", quoteToken := "USDC", price := price, priceUsd := price,
    liquidity := liquidity, volume24h := 0, timestamp := ts, blockNumber := 1,
    gasPrice := none, feeTier := none }

/-- Fee data with every provider failing / returning no fee: gas cost `0`. -/
def feeNone : ChainId → Option Nat := fun _ => none

/-- Fee data reporting a gas price of `10^12` wei on every chain: on Ethereum
(`gasLimit = 300000`) this yields an estimated cost of 600 USD per side. -/
def feeEth : ChainId → Option Nat := fun _ => some (10 ^ 12)

def qA : PriceData := mkQuote "a" .uniswapV2 .ethereum 2000 10 0

def qB : PriceData := mkQuote "b" .sushiswap .ethereum 2050 10 0

def q4a : PriceData := mkQuote "c" .uniswapV2 .ethereum 2000 0 0

def q4b : PriceData := mkQuote "d" .sushiswap .ethereum 2050 5 0

def q6a : PriceData := mkQuote "e" .uniswapV2 .ethereum 2050 5 0

def q6b : PriceData := mkQuote "f" .sushiswap .ethereum 2000 10 0

/-- The opportunity produced from `qA`/`qB` with zero gas cost. -/
def oppA : ArbitrageOpportunity :=
  { tokenPair := "ETH/USDC", baseToken := "ETH", quoteToken := "USDC",
    sourceChain := .ethereum, sourceDex := .uniswapV2,
    targetChain := .ethereum, targetDex := .sushiswap,
    sourcePrice := 2000, targetPrice := 2050, priceDifference := 50,
    priceDifferencePercent := .fin (5 / 2), potentialProfit := 500,
    gasCost := 0, netProfit := 500, profitMargin := .fin 100,
    timestamp := 0, isProfitable := true, minProfitThreshold := 2 }

/-- The opportunity produced from `q4a`/`q4b` (buy-side liquidity 0) with
600 USD gas per side: zero gross profit and a non-finite margin. -/
def opp4 : ArbitrageOpportunity :=
  { tokenPair := "ETH/USDC", baseToken := "ETH", quoteToken := "USDC",
    sourceChain := .ethereum, sourceDex := .uniswapV2,
    targetChain := .ethereum, targetDex := .sushiswap,
    sourcePrice := 2000, targetPrice := 2050, priceDifference := 50,
    priceDifferencePercent := .fin (5 / 2), potentialProfit := 0,
    gasCost := 1200, netProfit := -1200, profitMargin := .negInf,
    timestamp := 0, isProfitable := false, minProfitThreshold := 2 }

/-- The opportunity produced from `q6a`/`q6b` (the *second* quote is the cheaper,
buy-side one) with zero gas cost: gross profit uses the first quote's liquidity. -/
def opp6 : ArbitrageOpportunity :=
  { tokenPair := "ETH/USDC", baseToken := "ETH", quoteToken := "USDC",
    sourceChain := .ethereum, sourceDex := .sushiswap,
    targetChain := .ethereum, targetDex := .uniswapV2,
    sourcePrice := 2000, targetPrice := 2050, priceDifference := 50,
    priceDifferencePercent := .fin (5 / 2), potentialProfit := 250,
    gasCost := 0, netProfit := 250, profitMargin := .fin 100,
    timestamp := 0, isProfitable := true, minProfitThreshold := 2 }

/-! ## Supporting lemmas -/

theorem estimateGasCost_nonneg (feeData : ChainId → Option Nat) (chainId : ChainId) :
    0 ≤ estimateGasCost feeData chainId := by
  unfold estimateGasCost
  cases feeData chainId with
  | none => simp
  | some gasPriceWei => positivity

/-- The opportunity produced from `qA`/`qB` with 600 USD gas per side:
net profit −700, not profitable. -/
def oppAfee : ArbitrageOpportunity :=
  { tokenPair := "ETH/USDC", baseToken := "ETH", quoteToken := "USDC",
    sourceChain := .ethereum, sourceDex := .uniswapV2,
    targetChain := .ethereum, targetDex := .sushiswap,
    sourcePrice := 2000, targetPrice := 2050, priceDifference := 50,
    priceDifferencePercent := .fin (5 / 2), potentialProfit := 500,
    gasCost := 1200, netProfit := -700, profitMargin := .fin (-140),
    timestamp := 0, isProfitable := false, minProfitThreshold := 2 }

/-- The Ethereum Uniswap-V2 venue configuration (first entry of `DEX_CONFIGS`). -/
def dexEthUniV2 : DexConfig :=
  { name := .uniswapV2, chainId := .ethereum, version := "v2", feeTier := none,
    isActive := true }

/-- The ETH/USDC pair configuration (first entry of `TOKEN_PAIRS`). -/
def pairEthUsdc : TokenPairConfig :=
  { baseToken := "ETH", quoteToken := "USDC", baseTokenDecimals := 18,
    quoteTokenDecimals := 6 }

/-- A quote fetched at t = 2000 ms from reserves (1000 base, 2000000 quote):
price 2000, liquidity 2001000. -/
def qStale : PriceData :=
  fetchUniswapV2Price dexEthUniV2 pairEthUsdc "q1" 1000 2000000 true 2000 100 (some 5)

/-- The monitor state after the poller stores `qStale` at t = 2000 ms. -/
def stStale : DexMonitorState :=
  (fetchPriceForDex DexMonitorState.empty dexEthUniV2 pairEthUsdc 2000 (.ok qStale)).state

/-- A quote fetched from a pool whose quote-side reserve is drained
(reserves 1000 base, 0 quote): price 0. -/
def qZero : PriceData :=
  fetchUniswapV2Price dexEthUniV2 pairEthUsdc "z" 1000 0 true 2000 100 none

/-- The monitor state after the poller stores the invalid quote `qZero`. -/
def stZero : DexMonitorState :=
  (fetchPriceForDex DexMonitorState.empty dexEthUniV2 pairEthUsdc 2000 (.ok qZero)).state

/-- Evaluation of the detector on the Scenario-A-style fixture `qA`/`qB`
(buy 2000, sell 2050, liquidity 10, zero cost). -/
theorem calcOpp_qAqB :
    calculateOpportunity defaultTradingConfig feeNone 0 qA qB = some oppA := by
  norm_num [calculateOpportunity, qA, qB, oppA, mkQuote, defaultTradingConfig,
    feeNone, estimateGasCost, jsDiv, JsNum.mul100, JsNum.ltQ, JsNum.geQ, min_def]

/-- Evaluation of the detector on `q4a`/`q4b` (buy-side liquidity 0, 600 USD
gas per side): zero gross profit, `-Infinity` margin, not profitable. -/
theorem calcOpp_q4 :
    calculateOpportunity defaultTradingConfig feeEth 0 q4a q4b = some opp4 := by
  norm_num [calculateOpportunity, q4a, q4b, opp4, mkQuote, defaultTradingConfig,
    feeEth, estimateGasCost, gasLimitFor, jsDiv, JsNum.mul100, JsNum.ltQ, JsNum.geQ, min_def]

/-- Evaluation of the detector on `q6a`/`q6b` (the second quote is the cheaper,
buy-side one): gross profit uses the first quote's liquidity 5, not the buy
side's 10. -/
theorem calcOpp_q6 :
    calculateOpportunity defaultTradingConfig feeNone 0 q6a q6b = some opp6 := by
  norm_num [calculateOpportunity, q6a, q6b, opp6, mkQuote, defaultTradingConfig,
    feeNone, estimateGasCost, jsDiv, JsNum.mul100, JsNum.ltQ, JsNum.geQ, min_def]

/-- Evaluation of the detector on `qA`/`qB` with 600 USD gas per side:
the generated record exists but is not profitable. -/
theorem calcOpp_qAqB_fee :
    calculateOpportunity defaultTradingConfig feeEth 0 qA qB = some oppAfee := by
  norm_num [calculateOpportunity, qA, qB, oppAfee, mkQuote, defaultTradingConfig,
    feeEth, estimateGasCost, gasLimitFor, jsDiv, JsNum.mul100, JsNum.ltQ, JsNum.geQ, min_def]

/-- Evaluation of the pair loop on `[qA, qB]` with zero gas cost: exactly the
profitable record `oppA` is returned. -/
theorem calcPair_qAqB :
    calculatePairOpportunities defaultTradingConfig feeNone 0 [qA, qB] = [oppA] := by
  have hf : recentPricesFilter 0 [qA, qB] = [qA, qB] := by
    norm_num [recentPricesFilter, maxPriceAge, qA, qB, mkQuote]
  have hstep : pairLoopStep defaultTradingConfig feeNone 0 (qA, qB) = some oppA := by
    simp only [pairLoopStep]
    rw [if_neg (by decide : ¬(qA.chainId = qB.chainId ∧ qA.dexName = qB.dexName))]
    rw [calcOpp_qAqB]
    rfl
  simp only [calculatePairOpportunities]
  rw [hf]
  simp [pairCombos, List.filterMap, hstep]

/-- The `Map.get` after `Map.set` on the same key returns the stored value. -/
theorem mapGet_mapSet_self (m : List (String × α)) (k : String) (v : α) :
    mapGet (mapSet m k v) k = some v := by
  induction m with
  | nil => simp [mapGet, mapSet, List.find?]
  | cons kv rest ih =>
    by_cases hk : kv.1 = k
    · simp [mapGet, mapSet, List.any_cons, List.find?_cons, hk]
    · by_cases hr : rest.any (fun x => (decide (x.1 = k))) = true
      · simp [mapGet, mapSet, List.any_cons, List.find?_cons, hk, hr] at ih ⊢
        exact ih
      · simp [mapGet, mapSet, List.any_cons, List.find?_cons, hk, hr] at ih ⊢
        exact ih

/-! ## Claim theorems -/

/-- C1: for every Opportunity produced by `calculateOpportunity`, the
`isProfitable` flag equals the conjunction
`netProfit > 0 AND netMargin >= minProfitThreshold AND totalCost <= maxGasCost`,
where `netProfit`, `profitMargin` (`netMargin`) and `gasCost` (`totalCost`) are
the values stored on the record and the thresholds come from the trading
configuration (the stored `minProfitThreshold` and the configured `maxGasCost`);
the margin comparison is the JS `>=`, false for a non-finite margin. -/
theorem isProfitable_eq_profit_conjunction (cfg : TradingConfig)
    (feeData : ChainId → Option Nat) (now : Int) (s t : PriceData)
    (opp : ArbitrageOpportunity)
    (h : calculateOpportunity cfg feeData now s t = some opp) :
    opp.isProfitable = true ↔
      (0 < opp.netProfit ∧ opp.profitMargin.geQ opp.minProfitThreshold = true ∧
        opp.gasCost ≤ cfg.maxGasCost) := by
  simp only [calculateOpportunity] at h
  split at h
  · exact absurd h (by simp)
  · injection h with h2
    subst h2
    simp [Bool.and_eq_true, decide_eq_true_iff, and_assoc]

theorem isProfitable_eq_profit_conjunction_wit :
    calculateOpportunity defaultTradingConfig feeNone 0 qA qB = some oppA ∧
      (oppA.isProfitable = true ↔
        (0 < oppA.netProfit ∧ oppA.profitMargin.geQ oppA.minProfitThreshold = true ∧
          oppA.gasCost ≤ defaultTradingConfig.maxGasCost)) :=
  ⟨calcOpp_qAqB,
   isProfitable_eq_profit_conjunction defaultTradingConfig feeNone 0 qA qB oppA calcOpp_qAqB⟩

/-- C4 counterexample: the net-margin computation has *no* division-by-zero
guard.  On the quotes `q4a`/`q4b` (buy-side liquidity 0, so `grossProfit = 0`)
the source evaluates `netMargin = netProfit / 0 * 100 = -Infinity` and stores
that non-finite value on the emitted record, contradicting the claim that a
zero gross profit is resolved to a safe result rather than a non-finite margin. -/
theorem zero_gross_margin_nonfinite :
    calculateOpportunity defaultTradingConfig feeEth 0 q4a q4b = some opp4 ∧
      opp4.potentialProfit = 0 ∧ opp4.profitMargin = JsNum.negInf ∧
      opp4.isProfitable = false :=
  ⟨calcOpp_q4, rfl, rfl, rfl⟩

/-- C4 amended: there is no explicit division-by-zero guard and the stored
margin is non-finite when `grossProfit = 0`, but the opportunity is nonetheless
always non-profitable in that case: `netProfit = -totalCost ≤ 0` fails the
`netProfit > 0` conjunct (and a `NaN`/`-Infinity` margin fails the JS `>=`),
and no error is raised (the function still returns a record). -/
theorem zero_gross_not_profitable (cfg : TradingConfig)
    (feeData : ChainId → Option Nat) (now : Int) (s t : PriceData)
    (opp : ArbitrageOpportunity)
    (h : calculateOpportunity cfg feeData now s t = some opp)
    (h0 : opp.potentialProfit = 0) :
    opp.isProfitable = false := by
  simp only [calculateOpportunity] at h
  split at h
  · exact absurd h (by simp)
  · injection h with h2
    subst h2
    simp only at h0 ⊢
    have t1 := estimateGasCost_nonneg feeData
      (if s.price < t.price then s.chainId else t.chainId)
    have t2 := estimateGasCost_nonneg feeData
      (if s.price < t.price then t.chainId else s.chainId)
    rw [h0]
    have hno : ¬ (0 : ℚ) <
        0 - (estimateGasCost feeData (if s.price < t.price then s.chainId else t.chainId) +
          estimateGasCost feeData (if s.price < t.price then t.chainId else s.chainId)) := by
      intro hc
      linarith
    have hfst : decide ((0 : ℚ) <
        0 - (estimateGasCost feeData (if s.price < t.price then s.chainId else t.chainId) +
          estimateGasCost feeData (if s.price < t.price then t.chainId else s.chainId)))
        = false := decide_eq_false hno
    simp [hfst]
    intro hlt hm
    exact absurd hlt (by linarith)

theorem zero_gross_not_profitable_wit :
    calculateOpportunity defaultTradingConfig feeEth 0 q4a q4b = some opp4 ∧
      opp4.potentialProfit = 0 ∧ opp4.isProfitable = false :=
  ⟨calcOpp_q4, rfl,
   zero_gross_not_profitable defaultTradingConfig feeEth 0 q4a q4b opp4
     calcOpp_q4 rfl⟩

/-- C6 counterexample: gross profit is *not* computed from the buy-side quote's
liquidity for both orderings.  On `q6a` (price 2050, liquidity 5) compared with
`q6b` (price 2000, liquidity 10) the buy side is the second quote `q6b`, but the
source computes `potentialProfit = (sellPrice - buyPrice) * sourcePrice.liquidity
= 50 * 5 = 250`, not `50 * 10 = 500` as the buy-side liquidity would give. -/
theorem reference_size_not_buy_side :
    calculateOpportunity defaultTradingConfig feeNone 0 q6a q6b = some opp6 ∧
      opp6.sourceDex = q6b.dexName ∧ opp6.sourcePrice = q6b.price ∧
      opp6.potentialProfit = 250 ∧
      (opp6.targetPrice - opp6.sourcePrice) * q6b.liquidity = 500 ∧
      opp6.potentialProfit ≠ (opp6.targetPrice - opp6.sourcePrice) * q6b.liquidity := by
  refine ⟨calcOpp_q6, rfl, rfl, rfl, ?_, ?_⟩ <;>
    norm_num [opp6, q6b, mkQuote]

/-- C6 amended: gross profit is `(sellPrice - buyPrice) * sourcePrice.liquidity`
where `sourcePrice` is always the *first* of the two compared quotes, regardless
of which side is the buy side; it coincides with the buy-side liquidity only
when the first quote happens to be the cheaper one. -/
theorem reference_size_is_source_liquidity (cfg : TradingConfig)
    (feeData : ChainId → Option Nat) (now : Int) (s t : PriceData)
    (opp : ArbitrageOpportunity)
    (h : calculateOpportunity cfg feeData now s t = some opp) :
    opp.potentialProfit = (opp.targetPrice - opp.sourcePrice) * s.liquidity := by
  simp only [calculateOpportunity] at h
  split at h
  · exact absurd h (by simp)
  · injection h with h2
    subst h2
    rfl

theorem reference_size_is_source_liquidity_wit :
    calculateOpportunity defaultTradingConfig feeNone 0 q6a q6b = some opp6 ∧
      opp6.potentialProfit = (opp6.targetPrice - opp6.sourcePrice) * q6a.liquidity :=
  ⟨calcOpp_q6,
   reference_size_is_source_liquidity defaultTradingConfig feeNone 0 q6a q6b opp6 calcOpp_q6⟩

/-- C2 counterexample: `getAllCachedPrices` applies no staleness filter.  After
the poller stores `qStale` (observed at t = 2000 ms), reading the cache at
t = 2000 + 10⁹ ms still returns `qStale`, whose age 10⁹ ms is far beyond
`MAX_PRICE_AGE` (60000 ms) — a stale quote is returned, not filtered out. -/
theorem getAllCachedPrices_returns_stale_quote :
    getAllCachedPrices stStale = [qStale] ∧
      (2000 + 10 ^ 9 : Int) - qStale.timestamp ≥ maxPriceAge :=
  ⟨rfl, by decide⟩

/-- C2 amended: `getAllCachedPrices` returns every cached quote regardless of
age (first conjunct: it is exactly the list of stored values); the freshness
window is enforced only downstream, by the Detector's input filter, which never
lets through a quote whose age `now - timestamp` reaches `MAX_PRICE_AGE`
(second conjunct). -/
theorem freshness_filter_at_detector :
    (∀ st : DexMonitorState, getAllCachedPrices st = st.priceCache.map (fun kv => kv.2)) ∧
    ∀ (now : Int) (prices : List PriceData) (p : PriceData),
      p ∈ recentPricesFilter now prices → now - p.timestamp < maxPriceAge := by
  constructor
  · intro st
    rfl
  · intro now prices p hp
    have h := (List.mem_filter.mp hp).2
    simpa using h

theorem freshness_filter_at_detector_wit :
    qA ∈ recentPricesFilter 0 [qA] ∧ (0 : Int) - qA.timestamp < maxPriceAge :=
  ⟨by decide, freshness_filter_at_detector.2 0 [qA] qA (by decide)⟩

/-- C3 counterexample: the detector does *not* return a record for every
surviving cross-venue pair.  On `[qA, qB]` (distinct venues, fresh, 2.5% gap,
so the pair survives every skip rule and a record is generated — second
conjunct) with total gas cost 1200 the record is unprofitable, and
`calculatePairOpportunities` returns the empty list rather than the record. -/
theorem pair_loop_drops_unprofitable_record :
    calculatePairOpportunities defaultTradingConfig feeEth 0 [qA, qB] = [] ∧
      (calculateOpportunity defaultTradingConfig feeEth 0 qA qB).map
        (fun opp => opp.isProfitable) = some false := by
  constructor
  · have hf : recentPricesFilter 0 [qA, qB] = [qA, qB] := by
      norm_num [recentPricesFilter, maxPriceAge, qA, qB, mkQuote]
    have hstep : pairLoopStep defaultTradingConfig feeEth 0 (qA, qB) = none := by
      simp only [pairLoopStep]
      rw [if_neg (by decide : ¬(qA.chainId = qB.chainId ∧ qA.dexName = qB.dexName))]
      rw [calcOpp_qAqB_fee]
      rfl
    simp only [calculatePairOpportunities]
    rw [hf]
    simp [pairCombos, List.filterMap, hstep]
  · rw [calcOpp_qAqB_fee]
    rfl

/-- C3 amended: the list returned by `calculatePairOpportunities` contains
*only* records with `isProfitable = true` (surviving but unprofitable pairs
produce no record in the output), and the set forwarded to the persistence
collaborator is exactly the returned list. -/
theorem pairOpportunities_only_profitable (cfg : TradingConfig)
    (feeData : ChainId → Option Nat) (now : Int) (prices : List PriceData) :
    storedPairOpportunities cfg feeData now prices =
        calculatePairOpportunities cfg feeData now prices ∧
    ∀ opp ∈ calculatePairOpportunities cfg feeData now prices,
      opp.isProfitable = true := by
  refine ⟨rfl, ?_⟩
  intro opp hopp
  simp only [calculatePairOpportunities] at hopp
  split at hopp
  · exact absurd hopp (by simp)
  · obtain ⟨c, _, hc⟩ := List.mem_filterMap.mp hopp
    simp only [pairLoopStep] at hc
    split at hc
    · exact absurd hc (by simp)
    · cases hcalc : calculateOpportunity cfg feeData now c.1 c.2 with
      | none => rw [hcalc] at hc; exact absurd hc (by simp)
      | some o =>
          rw [hcalc] at hc
          dsimp only at hc
          by_cases hpo : o.isProfitable = true
          · rw [if_pos hpo] at hc
            injection hc with h2
            rw [← h2]
            exact hpo
          · rw [if_neg hpo] at hc
            exact absurd hc (by simp)

theorem pairOpportunities_only_profitable_wit :
    oppA ∈ calculatePairOpportunities defaultTradingConfig feeNone 0 [qA, qB] ∧
      oppA.isProfitable = true :=
  have hmem : oppA ∈ calculatePairOpportunities defaultTradingConfig feeNone 0 [qA, qB] := by
    rw [calcPair_qAqB]
    exact List.mem_singleton.mpr rfl
  ⟨hmem,
   (pairOpportunities_only_profitable defaultTradingConfig feeNone 0 [qA, qB]).2 oppA hmem⟩

/-- C5 counterexample: no price/liquidity validation happens at the poller
boundary.  A quote computed from a drained pool (`qZero`, price 0, violating
the `price > 0` invariant) is stored into the cache unmodified by
`fetchPriceForDex`. -/
theorem invalid_quote_enters_cache :
    mapGet stZero.priceCache (storeKey dexEthUniV2 pairEthUsdc) = some qZero ∧
      qZero.price = 0 :=
  ⟨rfl, by norm_num [qZero, fetchUniswapV2Price]⟩

/-- C5 amended: the poller caches every fetched quote unconditionally (subject
only to the rate-limit window): for *any* quote `q` — including one with
non-positive price or negative liquidity — a successful fetch stores `q` under
its key, with no validation at the boundary (the source's `if (priceData)` only
tests object truthiness). -/
theorem fetch_caches_without_validation (st : DexMonitorState) (cfg : DexConfig)
    (pair : TokenPairConfig) (now : Int) (q : PriceData)
    (h : ¬ now - ((mapGet st.lastUpdateTime (storeKey cfg pair)).getD 0) <
        priceUpdateInterval) :
    mapGet (fetchPriceForDex st cfg pair now (.ok q)).state.priceCache
      (storeKey cfg pair) = some q := by
  simp only [fetchPriceForDex]
  rw [if_neg h]
  exact mapGet_mapSet_self st.priceCache (storeKey cfg pair) q

theorem fetch_caches_without_validation_wit :
    ¬ (2000 : Int) -
        ((mapGet DexMonitorState.empty.lastUpdateTime
          (storeKey dexEthUniV2 pairEthUsdc)).getD 0) < priceUpdateInterval ∧
    mapGet (fetchPriceForDex DexMonitorState.empty dexEthUniV2 pairEthUsdc 2000
        (.ok qZero)).state.priceCache (storeKey dexEthUniV2 pairEthUsdc) = some qZero :=
  ⟨by decide,
   fetch_caches_without_validation DexMonitorState.empty dexEthUniV2 pairEthUsdc 2000 qZero
     (by decide)⟩

/-- Every cache key the poller can ever write: `storeKey` over the configured
active venue × pair matrix (`monitorPrices` iterates exactly
`getActiveDexConfigs × TOKEN_PAIRS`). -/
def pollerStoreKeys : List String :=
  (getActiveDexConfigs.map (fun cfg => TOKEN_PAIRS.map (fun tp => storeKey cfg tp))).flatten

/-- C7: the poller writes keys of the form `chainId-dex-BASE-QUOTE` while
`getCachedPrice` reads keys of the form `chainId-dex-BASE/QUOTE` (the quote's
own `tokenPair` field uses a slash).  For every cache populated only by the
poller and every monitored venue/pair combination, the lookup misses: the two
key formats never coincide (poller keys contain no `/`, lookup keys do). -/
theorem getCachedPrice_misses_poller_keys (st : DexMonitorState)
    (hkeys : ∀ kv ∈ st.priceCache, kv.1 ∈ pollerStoreKeys)
    (cfg : DexConfig) (hcfg : cfg ∈ getActiveDexConfigs)
    (tp : TokenPairConfig) (htp : tp ∈ TOKEN_PAIRS) :
    getCachedPrice st cfg.chainId cfg.name (tokenPairStr tp) = none := by
  have hall : ∀ s ∈ pollerStoreKeys, ¬ '/' ∈ s.data := by decide
  have hsl : ∀ cfg2 ∈ getActiveDexConfigs, ∀ tp2 ∈ TOKEN_PAIRS,
      '/' ∈ (lookupKey cfg2.chainId cfg2.name (tokenPairStr tp2)).data := by decide
  unfold getCachedPrice mapGet
  have hfind : st.priceCache.find?
      (fun kv => kv.1 = lookupKey cfg.chainId cfg.name (tokenPairStr tp)) = none := by
    apply List.find?_eq_none.mpr
    intro kv hkv
    simp only [decide_eq_true_eq]
    intro heq
    have h1 := hall kv.1 (hkeys kv hkv)
    have h2 := hsl cfg hcfg tp htp
    rw [heq] at h1
    exact h1 h2
  rw [hfind]
  rfl

theorem getCachedPrice_misses_poller_keys_wit :
    ((∀ kv ∈ stStale.priceCache, kv.1 ∈ pollerStoreKeys) ∧
      dexEthUniV2 ∈ getActiveDexConfigs ∧ pairEthUsdc ∈ TOKEN_PAIRS) ∧
    getCachedPrice stStale dexEthUniV2.chainId dexEthUniV2.name
      (tokenPairStr pairEthUsdc) = none :=
  ⟨⟨by decide, by decide, by decide⟩,
   getCachedPrice_misses_poller_keys stStale (by decide) dexEthUniV2 (by decide)
     pairEthUsdc (by decide)⟩

/-- C8: a failed fetch leaves the monitor state — the cached quote for the key
*and* its last-update time — completely unchanged.  However, contrary to the
claim's second half, **no** metric event is stored on the failure path: the
`catch` block computes the metric's duration from `startTime`, a `const`
declared inside the `try` block and out of scope in the handler, so the
`storePerformanceMetric` call can never execute (the reference itself faults;
TypeScript rejects the file).  See the `fetchPriceForDex` model. -/
theorem fetch_failure_leaves_cache_no_metric (st : DexMonitorState) (cfg : DexConfig)
    (pair : TokenPairConfig) (now : Int) (msg : String) :
    (fetchPriceForDex st cfg pair now (.error msg)).state = st ∧
      (fetchPriceForDex st cfg pair now (.error msg)).storedMetric = none := by
  constructor <;>
  · simp only [fetchPriceForDex]
    split <;> rfl

/-! ## Connection-manager lemmas and claims C9 / C10 -/

/-- The state invariant of C9: a deactivated endpoint has exhausted its retry
budget (`active = false` implies `errorCount ≥ maxRetries`). -/
def endpointBudgetInv (rc : RpcConnection) : Prop :=
  rc.isActive = false → rc.maxRetries ≤ rc.errorCount

instance (rc : RpcConnection) : Decidable (endpointBudgetInv rc) := by
  unfold endpointBudgetInv
  infer_instance

theorem runPRetry_none_fields (o : Nat → Option Int) (now : Int) :
    ∀ (n k : Nat) (rc rc' : RpcConnection),
      runPRetry o now n k rc = (rc', none) →
      rc'.isActive = rc.isActive ∧ rc'.maxRetries = rc.maxRetries ∧
        rc'.errorCount = rc.errorCount + n := by
  intro n
  induction n with
  | zero =>
      intro k rc rc' h
      simp only [runPRetry, Prod.mk.injEq] at h
      rw [← h.1]
      exact ⟨rfl, rfl, rfl⟩
  | succ n ih =>
      intro k rc rc' h
      simp only [runPRetry] at h
      cases ho : o k with
      | some lat =>
          rw [ho] at h
          simp at h
      | none =>
          rw [ho] at h
          have hf := ih (k + 1) { rc with errorCount := rc.errorCount + 1 } rc' h
          refine ⟨hf.1, hf.2.1, ?_⟩
          have h3 := hf.2.2
          dsimp only at h3
          omega

theorem runPRetry_some_fields (o : Nat → Option Int) (now : Int) :
    ∀ (n k : Nat) (rc rc' : RpcConnection) (lat : Int),
      runPRetry o now n k rc = (rc', some lat) →
      rc'.isActive = rc.isActive ∧ rc'.maxRetries = rc.maxRetries := by
  intro n
  induction n with
  | zero =>
      intro k rc rc' lat h
      simp [runPRetry] at h
  | succ n ih =>
      intro k rc rc' lat h
      simp only [runPRetry] at h
      cases ho : o k with
      | some l =>
          rw [ho] at h
          simp only [Prod.mk.injEq] at h
          rw [← h.1]
          exact ⟨rfl, rfl⟩
      | none =>
          rw [ho] at h
          exact ih (k + 1) { rc with errorCount := rc.errorCount + 1 } rc' lat h

theorem establishLoop_preserves_inv (probe : Probe) (now : Int) :
    ∀ (rcs : List RpcConnection) (i : Nat),
      (∀ rc ∈ rcs, rc.maxRetries = maxRetriesConst) →
      (∀ rc ∈ rcs, endpointBudgetInv rc) →
      ∀ rc ∈ (establishLoop probe now i rcs).1, endpointBudgetInv rc := by
  intro rcs
  induction rcs with
  | nil =>
      intro i _ _ rc h
      simp [establishLoop] at h
  | cons rc0 rest ih =>
      intro i hmax hinv rc hrc
      simp only [establishLoop] at hrc
      by_cases hg : (!rc0.isActive || decide (rc0.maxRetries ≤ rc0.errorCount)) = true
      · rw [if_pos hg] at hrc
        rcases List.mem_cons.mp hrc with h0 | h1
        · exact h0 ▸ hinv rc0 (List.mem_cons_self _ _)
        · exact ih (i + 1) (fun x hx => hmax x (List.mem_cons_of_mem _ hx))
            (fun x hx => hinv x (List.mem_cons_of_mem _ hx)) rc h1
      · rw [if_neg hg] at hrc
        have hga : rc0.isActive = true ∧ rc0.errorCount < rc0.maxRetries := by
          simpa [not_or, Nat.not_le] using hg
        rcases hrun : runPRetry (probe i) now 3 0 rc0 with ⟨rc', res⟩
        rw [hrun] at hrc
        cases res with
        | some lat =>
            dsimp only at hrc
            rcases List.mem_cons.mp hrc with h0 | h1
            · have hf := runPRetry_some_fields (probe i) now 3 0 rc0 rc' lat hrun
              subst h0
              intro hFalse
              rw [hf.1, hga.1] at hFalse
              exact absurd hFalse (by simp)
            · exact hinv rc (List.mem_cons_of_mem _ h1)
        | none =>
            dsimp only at hrc
            rcases List.mem_cons.mp hrc with h0 | h1
            · have hf := runPRetry_none_fields (probe i) now 3 0 rc0 rc' hrun
              have hm := hmax rc0 (List.mem_cons_self _ _)
              subst h0
              intro _
              show rc'.maxRetries ≤ rc'.errorCount + 1
              have e1 := hf.2.1
              have e2 := hf.2.2
              rw [hm] at e1
              unfold maxRetriesConst at e1
              omega
            · exact ih (i + 1) (fun x hx => hmax x (List.mem_cons_of_mem _ hx))
                (fun x hx => hinv x (List.mem_cons_of_mem _ hx)) rc h1

/-- C9: the resolve/failover step preserves the endpoint-record invariant
`active = false → errorCount ≥ maxRetries` (here `maxRetries` is the configured
budget `MAX_RETRIES = 3` on every endpoint, as `createRpcConnections` sets it):
a failure on an endpoint only ever increments its error counter (once per probe
attempt plus once in the handler, so by 4 per exhausted endpoint), and by the
time the `catch` handler flips `active` to `false` the counter has necessarily
reached the budget; endpoints whose pRetry run succeeds stay active with a
reset counter, so the invariant cannot be broken on any path. -/
theorem establishConnection_preserves_budget_inv (probe : Probe) (now : Int)
    (conn : ChainConnection)
    (hmax : ∀ rc ∈ conn.connections, rc.maxRetries = maxRetriesConst)
    (hinv : ∀ rc ∈ conn.connections, endpointBudgetInv rc) :
    ∀ rc ∈ (establishConnection probe now conn).1.connections, endpointBudgetInv rc := by
  intro rc hrc
  have hloop := establishLoop_preserves_inv probe now conn.connections 0 hmax hinv
  unfold establishConnection at hrc
  rcases hl : establishLoop probe now 0 conn.connections with ⟨conns', res⟩
  rw [hl] at hrc hloop
  cases res with
  | some x =>
      rcases x with ⟨i, url, lat⟩
      dsimp only at hrc
      exact hloop rc hrc
  | none =>
      dsimp only at hrc
      exact hloop rc hrc

/-- All probes fail: every attempt on every endpoint throws. -/
def probeFail : Probe := fun _ _ => none

/-- A two-endpoint Ethereum connection record in its initial state. -/
def conn0 : ChainConnection :=
  { chainId := .ethereum, provider := none, wsProvider := none,
    connections := [⟨"https://rpc-a", true, 0, 0, 0, 3⟩, ⟨"https://rpc-b", true, 0, 0, 0, 3⟩],
    currentConnectionIndex := 0, isHealthy := false, lastBlockNumber := 0,
    lastBlockTime := 0 }

theorem establishConnection_preserves_budget_inv_wit :
    ((∀ rc ∈ conn0.connections, rc.maxRetries = maxRetriesConst) ∧
      (∀ rc ∈ conn0.connections, endpointBudgetInv rc)) ∧
    endpointBudgetInv ⟨"https://rpc-a", false, 0, 0, 4, 3⟩ :=
  ⟨⟨by decide, by decide⟩,
   establishConnection_preserves_budget_inv probeFail 5 conn0 (by decide) (by decide)
     ⟨"https://rpc-a", false, 0, 0, 4, 3⟩ (by decide)⟩

/-- C10: when a cached provider exists and the connection is marked healthy,
`getProvider` returns the cached provider immediately with zero network probes
and an unchanged manager state; consequently a second consecutive call (at any
later time) returns the very same provider and again performs zero I/O. -/
theorem getProvider_cached_healthy_idempotent (probe : Probe) (now now2 : Int)
    (st : ChainManagerState) (chainId : ChainId) (conn : ChainConnection) (p : String)
    (hconn : cmGet st chainId = some conn)
    (hp : conn.provider = some p)
    (hh : conn.isHealthy = true) :
    getProvider probe now st chainId =
        { result := .ok p, state := st, probeCount := 0 } ∧
    getProvider probe now2 (getProvider probe now st chainId).state chainId =
        { result := .ok p, state := st, probeCount := 0 } := by
  have key : ∀ t : Int, getProvider probe t st chainId =
      { result := .ok p, state := st, probeCount := 0 } := by
    intro t
    unfold getProvider
    rw [hconn]
    dsimp only
    rw [hp]
    dsimp only
    rw [if_pos hh]
  refine ⟨key now, ?_⟩
  rw [key now]
  exact key now2

/-- A healthy cached Ethereum connection. -/
def connHealthy : ChainConnection :=
  { chainId := .ethereum, provider := some "https://rpc-a", wsProvider := none,
    connections := [⟨"https://rpc-a", true, 0, 50, 0, 3⟩],
    currentConnectionIndex := 0, isHealthy := true, lastBlockNumber := 100,
    lastBlockTime := 0 }

/-- A manager state holding the healthy cached connection. -/
def stCM : ChainManagerState := ⟨[(.ethereum, connHealthy)]⟩

theorem getProvider_cached_healthy_idempotent_wit :
    (cmGet stCM .ethereum = some connHealthy ∧
      connHealthy.provider = some "https://rpc-a" ∧ connHealthy.isHealthy = true) ∧
    getProvider probeFail 7 stCM .ethereum =
      { result := .ok "https://rpc-a", state := stCM, probeCount := 0 } :=
  ⟨⟨by decide, by decide, by decide⟩,
   (getProvider_cached_healthy_idempotent probeFail 7 8 stCM .ethereum connHealthy
     "https://rpc-a" (by decide) (by decide) (by decide)).1⟩

end MevBot


